import Mathlib

/-!
Shallow embedding of the MCP core of this repository:
`python/mcp/model_context.py` (ContextType, ModelType, ContextMetadata,
ModelContext, ContextRegistry) and `python/ai/model_manager.py`
(ModelStatus, ModelInfo, AIModel, ModelManager), plus the mock path of
`python/ai/language_model.py` (LanguageModel.run).

Modelling conventions:
- Python dicts keyed by strings become association lists with Python-dict
  semantics (first occurrence wins on lookup; assignment overwrites in
  place, or appends a fresh key at the end).
- Timestamps (`time.time()` floats) are opaque numeric instants, modelled
  as `Nat` ticks passed in explicitly; no operation computes with them,
  they are only stored and compared.
- A raised Python exception is an `Except.error`; `None` returns are
  `Option.none`.
- In-place mutation of an object (e.g. `model.status = ...`) is modelled
  by rebuilding the record and writing it back to its containing map.
-/

/-- Association-list lookup with Python-dict semantics: the first entry
whose key matches wins (`d.get(k)` / `d[k]`). -/
def alookup {β : Type} (k : String) : List (String × β) → Option β
  | [] => none
  | p :: rest => if p.1 = k then some p.2 else alookup k rest

/-- Association-list assignment with Python-dict semantics: `d[k] = v`
overwrites in place when the key exists, otherwise appends at the end. -/
def aset {β : Type} : List (String × β) → String → β → List (String × β)
  | [], k, v => [(k, v)]
  | p :: rest, k, v => if p.1 = k then (k, v) :: rest else p :: aset rest k v

/-- ContextType enum from `python/mcp/model_context.py`. -/
inductive ContextType where
  | TEXT
  | IMAGE
  | Audio
  | NUMERIC
  | CATEGORICAL
  | VECTOR
  | MIXED
  deriving DecidableEq, Repr

/-- The `.value` string tag of a ContextType member. -/
def ContextType.value : ContextType → String
  | .TEXT => "text"
  | .IMAGE => "image"
  | .Audio => "audio"
  | .NUMERIC => "numeric"
  | .CATEGORICAL => "categorical"
  | .VECTOR => "vector"
  | .MIXED => "mixed"

/-- The enum constructor call `ContextType(s)`: `some` member on a known
tag, `none` standing for the ValueError raised on an unknown tag. -/
def ContextType.ofValue : String → Option ContextType
  | "text" => some .TEXT
  | "image" => some .IMAGE
  | "audio" => some .Audio
  | "numeric" => some .NUMERIC
  | "categorical" => some .CATEGORICAL
  | "vector" => some .VECTOR
  | "mixed" => some .MIXED
  | _ => none

/-- ModelType enum from `python/mcp/model_context.py`. -/
inductive ModelType where
  | LANGUAGE
  | VISION
  | MULTIMODAL
  | Audio
  | REINFORCEMENT_LEARNING
  | CUSTOM
  deriving DecidableEq, Repr

/-- The `.value` string tag of a ModelType member. -/
def ModelType.value : ModelType → String
  | .LANGUAGE => "language"
  | .VISION => "vision"
  | .MULTIMODAL => "multimodal"
  | .Audio => "audio"
  | .REINFORCEMENT_LEARNING => "reinforcement_learning"
  | .CUSTOM => "custom"

/-- The enum constructor call `ModelType(s)`: `some` member on a known
tag, `none` standing for the ValueError raised on an unknown tag. -/
def ModelType.ofValue : String → Option ModelType
  | "language" => some .LANGUAGE
  | "vision" => some .VISION
  | "multimodal" => some .MULTIMODAL
  | "audio" => some .Audio
  | "reinforcement_learning" => some .REINFORCEMENT_LEARNING
  | "custom" => some .CUSTOM
  | _ => none

/-- JSON-compatible Python values, as produced and consumed by
`to_dict`/`from_dict`. Numeric payload values are opaque to
serialization (only copied), so they are modelled as integers. -/
inductive JsonValue where
  | null
  | bool (b : Bool)
  | num (n : Int)
  | str (s : String)
  | arr (elems : List JsonValue)
  | obj (fields : List (String × JsonValue))

/-- A numpy ndarray payload: a nested, finitely deep array of numbers. -/
inductive NDArray where
  | scalar (x : Int)
  | arr (elems : List NDArray)

mutual

/-- The `.tolist()` conversion of a numpy array: the equivalent nested
sequence of numbers as a JSON value. -/
def NDArray.tolist : NDArray → JsonValue
  | .scalar x => JsonValue.num x
  | .arr es => JsonValue.arr (NDArray.tolistAll es)

/-- Pointwise `.tolist()` over the elements of an array level. -/
def NDArray.tolistAll : List NDArray → List JsonValue
  | [] => []
  | a :: as => NDArray.tolist a :: NDArray.tolistAll as

end

/-- The `data` payload of a ModelContext: either an already
JSON-compatible Python value, or a numpy ndarray (the one case
`ModelContext.to_dict` treats specially). -/
inductive PyData where
  | json (v : JsonValue)
  | ndarray (a : NDArray)

/-- The `data_serialized` computation in `ModelContext.to_dict`:
numpy arrays are converted with `.tolist()`, everything else is passed
through unchanged. -/
def PyData.serialize : PyData → JsonValue
  | .json v => v
  | .ndarray a => a.tolist

/-- ContextMetadata from `python/mcp/model_context.py`. -/
structure ContextMetadata where
  creation_time : Nat
  source : String
  version : String
  dimensions : Option (List Int) := none
  content_type : Option String := none
  tags : List String := []

/-- The dict produced by `ContextMetadata.to_dict`: its key set is fixed
(every key below is always written, optional fields as `None`). -/
structure MetadataDict where
  creation_time : Nat
  source : String
  version : String
  dimensions : Option (List Int)
  content_type : Option String
  tags : List String

/-- `ContextMetadata.to_dict` (model_context.py lines 52-61). -/
def ContextMetadata.to_dict (m : ContextMetadata) : MetadataDict :=
  { creation_time := m.creation_time
    source := m.source
    version := m.version
    dimensions := m.dimensions
    content_type := m.content_type
    tags := m.tags }

/-- `ContextMetadata.from_dict` (model_context.py lines 63-73): the
required keys are read with `data[k]`, the optional ones with
`data.get(k)` / `data.get("tags", [])`, which the dict record's
optional fields model. -/
def ContextMetadata.from_dict (d : MetadataDict) : ContextMetadata :=
  { creation_time := d.creation_time
    source := d.source
    version := d.version
    dimensions := d.dimensions
    content_type := d.content_type
    tags := d.tags }

/-- ModelContext from `python/mcp/model_context.py`. -/
structure ModelContext where
  context_id : String
  context_type : ContextType
  data : PyData
  metadata : ContextMetadata
  model_type : Option ModelType := none

/-- The dict produced by `ModelContext.to_dict`: enum fields as their
string tags, `model_type` possibly `None`. -/
structure ModelContextDict where
  context_id : String
  context_type : String
  data : JsonValue
  metadata : MetadataDict
  model_type : Option String

/-- `ModelContext.to_dict` (model_context.py lines 90-104):
`model_type.value if self.model_type else None` — an enum member is
always truthy, so this is exactly `Option.map`. -/
def ModelContext.to_dict (c : ModelContext) : ModelContextDict :=
  { context_id := c.context_id
    context_type := c.context_type.value
    data := c.data.serialize
    metadata := c.metadata.to_dict
    model_type := c.model_type.map ModelType.value }

/-- The `ModelType(data["model_type"]) if data.get("model_type") else
None` step of `ModelContext.from_dict`: an absent or empty (falsy) tag
yields `None`; a non-empty unknown tag raises (outer `none`). -/
def resolveModelType : Option String → Option (Option ModelType)
  | none => some none
  | some s => if s = "" then some none else (ModelType.ofValue s).map some

/-- `ModelContext.from_dict` (model_context.py lines 110-123); `none`
stands for the ValueError a bad enum tag raises. The deserialized `data`
field is the plain JSON value from the dict. -/
def ModelContext.from_dict (d : ModelContextDict) : Option ModelContext :=
  match ContextType.ofValue d.context_type with
  | none => none
  | some ct =>
    match resolveModelType d.model_type with
    | none => none
    | some mt =>
      some { context_id := d.context_id
             context_type := ct
             data := PyData.json d.data
             metadata := ContextMetadata.from_dict d.metadata
             model_type := mt }

/-- ContextRegistry from `python/mcp/model_context.py`:
`_contexts: Dict[str, ModelContext]`. -/
structure ContextRegistry where
  _contexts : List (String × ModelContext)

/-- `ContextRegistry.register` (model_context.py lines 142-147): the
returned flag records whether the id-collision warning was logged
(`logger.warning(... Overwriting.)`); the store is updated
last-write-wins either way. -/
def ContextRegistry.register (r : ContextRegistry) (c : ModelContext) :
    ContextRegistry × Bool :=
  (⟨aset r._contexts c.context_id c⟩, (alookup c.context_id r._contexts).isSome)

/-- `ContextRegistry.get` (model_context.py lines 149-151). -/
def ContextRegistry.get (r : ContextRegistry) (context_id : String) :
    Option ModelContext :=
  alookup context_id r._contexts

/-- `ContextRegistry.delete` (model_context.py lines 167-172). -/
def ContextRegistry.delete (r : ContextRegistry) (context_id : String) :
    ContextRegistry × Bool :=
  match alookup context_id r._contexts with
  | some _ => (⟨r._contexts.filter (fun p => p.1 ≠ context_id)⟩, true)
  | none => (r, false)

/-- ModelStatus enum from `python/ai/model_manager.py`. -/
inductive ModelStatus where
  | INITIALIZING
  | READY
  | RUNNING
  | ERROR
  | STOPPED
  deriving DecidableEq, Repr

/-- ModelInfo from `python/ai/model_manager.py` (the dataclass defaults:
`status = ModelStatus.INITIALIZING`, `metadata = None`). -/
structure ModelInfo where
  model_id : String
  name : String
  version : String
  model_type : ModelType
  description : String
  supported_context_types : List ContextType
  status : ModelStatus := ModelStatus.INITIALIZING
  metadata : Option (List (String × JsonValue)) := none

/-- A raised Python exception, as observed from the manager: the manager
catches every `Exception` alike, so only the message is kept. -/
inductive PyError where
  | valueError (msg : String)
  | typeError (msg : String)

/-- AIModel from `python/ai/model_manager.py`: the shared fields
(`model_info`, `_last_run_time`, initially `0.0`), plus the behavior of
the two abstract methods of the concrete variant, as pure functions —
`initializeImpl` is the outcome of `initialize()` (a returned Bool, or a
raised exception) and `runImpl context` is the outcome of
`run(context)` (a returned context, or a raised exception). The
variants in this repository (language/vision, mock path) mutate no
model field inside `run`, so pure behavior functions are faithful. -/
structure AIModel where
  model_info : ModelInfo
  last_run_time : Nat := 0
  initializeImpl : Except PyError Bool
  runImpl : ModelContext → Except PyError ModelContext

/-- The `model_id` property of AIModel. -/
def AIModel.model_id (m : AIModel) : String :=
  m.model_info.model_id

/-- The `status` property (getter) of AIModel. -/
def AIModel.status (m : AIModel) : ModelStatus :=
  m.model_info.status

/-- The `status` property (setter) of AIModel: `model.status = value`
writes through to `model_info.status`. -/
def AIModel.set_status (m : AIModel) (value : ModelStatus) : AIModel :=
  { m with model_info := { m.model_info with status := value } }

/-- `AIModel.update_last_run_time` (model_manager.py lines 115-117):
stamps `_last_run_time` to the current instant. -/
def AIModel.update_last_run_time (m : AIModel) (now : Nat) : AIModel :=
  { m with last_run_time := now }

/-- `AIModel.supports_context_type` (model_manager.py lines 119-121):
membership of the context type in `model_info.supported_context_types`. -/
def AIModel.supports_context_type (m : AIModel) (context_type : ContextType) : Bool :=
  m.model_info.supported_context_types.contains context_type

/-- ModelManager from `python/ai/model_manager.py`:
`_models: Dict[str, AIModel]`. -/
structure ModelManager where
  _models : List (String × AIModel)

/-- `ModelManager.register_model` (model_manager.py lines 134-141):
reject a duplicate `model_id` (False, no state change), otherwise insert
the model as-is and return True. -/
def ModelManager.register_model (mgr : ModelManager) (model : AIModel) :
    Bool × ModelManager :=
  if (alookup model.model_id mgr._models).isSome then (false, mgr)
  else (true, ⟨mgr._models ++ [(model.model_id, model)]⟩)

/-- `ModelManager.initialize_model` (model_manager.py lines 143-160):
unknown id → False with no state change; otherwise run `initialize()`
in a try block — a True result sets status READY and returns True, a
False result sets status ERROR and returns False, and a raised
exception sets status ERROR and returns False. The status write on the
shared model object is modelled by writing the updated model back into
the manager's map. -/
def ModelManager.initialize_model (mgr : ModelManager) (model_id : String) :
    Bool × ModelManager :=
  match alookup model_id mgr._models with
  | none => (false, mgr)
  | some model =>
    match model.initializeImpl with
    | .ok true => (true, ⟨aset mgr._models model_id (model.set_status .READY)⟩)
    | .ok false => (false, ⟨aset mgr._models model_id (model.set_status .ERROR)⟩)
    | .error _ => (false, ⟨aset mgr._models model_id (model.set_status .ERROR)⟩)

/-- The outcome of one `run_model` call: the returned value, the manager
state after the call, and the sequence of statuses assigned to the
model's `status` property during the call, in program order (one entry
per `model.status = ...` statement executed). -/
structure RunModelResult where
  result : Option ModelContext
  manager : ModelManager
  status_writes : List ModelStatus

/-- `ModelManager.run_model` (model_manager.py lines 162-188), with the
guards in source order: unknown id → None; `status != READY` → None (no
write); unsupported context type → None (no write); otherwise status is
set to RUNNING and `run(context)` is invoked in a try block — on a
normal return the status is set back to READY, the last-run timestamp
is stamped to now and the result context is returned, while on a raised
exception the status is set to ERROR and None is returned. -/
def ModelManager.run_model (mgr : ModelManager) (model_id : String)
    (context : ModelContext) (now : Nat) : RunModelResult :=
  match alookup model_id mgr._models with
  | none => ⟨none, mgr, []⟩
  | some model =>
    if model.status ≠ ModelStatus.READY then ⟨none, mgr, []⟩
    else if ¬ model.supports_context_type context.context_type then ⟨none, mgr, []⟩
    else
      match model.runImpl context with
      | .ok result =>
        ⟨some result,
          ⟨aset mgr._models model_id
            ((model.set_status .READY).update_last_run_time now)⟩,
          [.RUNNING, .READY]⟩
      | .error _ =>
        ⟨none,
          ⟨aset mgr._models model_id (model.set_status .ERROR)⟩,
          [.RUNNING, .ERROR]⟩

/-- `ModelManager.get_model` (model_manager.py lines 190-192). -/
def ModelManager.get_model (mgr : ModelManager) (model_id : String) :
    Option AIModel :=
  alookup model_id mgr._models

/-- `ModelManager.unregister_model` (model_manager.py lines 203-208). -/
def ModelManager.unregister_model (mgr : ModelManager) (model_id : String) :
    Bool × ModelManager :=
  match alookup model_id mgr._models with
  | some _ => (true, ⟨mgr._models.filter (fun p => p.1 ≠ model_id)⟩)
  | none => (false, mgr)

/-- `LanguageModel.run` (language_model.py lines 65-107), mock path
(`TRANSFORMERS_AVAILABLE` false / `self.model is None`), for string
payloads — the only payload shape this repository feeds it; the string
slicing `input_text[:50]` / `input_text[:20]` is `String.take`, and a
non-string payload is outside the modelled fragment (mapped to a
TypeError). A non-TEXT context raises ValueError before anything else.
`now` is the `time.time()` instant observed while building the output
metadata, and `model_name` is the constructor argument (default
"gpt2"). -/
def LanguageModel.run (model_name : String) (now : Nat)
    (context : ModelContext) : Except PyError ModelContext :=
  if context.context_type ≠ ContextType.TEXT then
    .error (.valueError ("Unsupported context type: " ++ context.context_type.value))
  else
    match context.data with
    | PyData.json (JsonValue.str input_text) =>
      .ok { context_id := context.context_id ++ "_response"
            context_type := ContextType.TEXT
            data := PyData.json (JsonValue.str
              ("Response to: " ++ input_text.take 20 ++ "... (mock output)"))
            metadata :=
              { creation_time := now
                source := "language_model:" ++ model_name
                version := "1.0"
                dimensions := none
                content_type := some "text/plain"
                tags := ["generated", "language-model"] }
            model_type := some ModelType.LANGUAGE }
    | _ => .error (.typeError "unsupported operand for slicing")

/-!
Reference-identity view of the manager, for the aliasing behavior of
`list_models` (model_manager.py lines 194-201). In CPython the list
comprehension `[m.model_info for m in models]` returns the very
ModelInfo objects the models hold, not copies, so a caller mutating a
returned ModelInfo mutates what the manager observes. Object identity
is made explicit by placing ModelInfo objects on a heap of cells and
letting each model hold a cell address; the value-level embedding above
is the same code viewed through dereferenced values.
-/

/-- A heap of ModelInfo objects; a reference is an index into `cells`. -/
structure InfoHeap where
  cells : List ModelInfo

/-- Dereference a ModelInfo reference. -/
def InfoHeap.read (h : InfoHeap) (r : Nat) : Option ModelInfo :=
  h.cells[r]?

/-- Mutate the ModelInfo object behind a reference in place. -/
def InfoHeap.write (h : InfoHeap) (r : Nat) (info : ModelInfo) : InfoHeap :=
  ⟨h.cells.set r info⟩

/-- An AIModel as seen by the reference view: it holds a reference to
its ModelInfo object (`self.model_info`), not a copy. -/
structure AIModelRef where
  model_info : Nat
  last_run_time : Nat := 0

/-- The manager's `_models` map in the reference view. -/
structure ModelManagerRef where
  _models : List (String × AIModelRef)

/-- `ModelManager.get_model` in the reference view. -/
def ModelManagerRef.get_model (mgr : ModelManagerRef) (model_id : String) :
    Option AIModelRef :=
  alookup model_id mgr._models

/-- `ModelManager.list_models` (model_manager.py lines 194-201) in the
reference view: filter the registered models by `model_type` when one
is given (an enum member is always truthy), then return the references
`m.model_info` held by the models — the objects themselves, not
snapshots. -/
def ModelManagerRef.list_models (mgr : ModelManagerRef) (h : InfoHeap)
    (model_type : Option ModelType) : List Nat :=
  (match model_type with
    | none => mgr._models.map Prod.snd
    | some t =>
      (mgr._models.map Prod.snd).filter
        (fun m => decide ((h.read m.model_info).map ModelInfo.model_type = some t))).map
    AIModelRef.model_info

/-- The status the manager observes for a registered model: reading
`get_model(model_id).status` dereferences the model's own ModelInfo
object. -/
def ModelManagerRef.model_status (mgr : ModelManagerRef) (h : InfoHeap)
    (model_id : String) : Option ModelStatus :=
  match alookup model_id mgr._models with
  | none => none
  | some m => (h.read m.model_info).map ModelInfo.status

/-!
Helper lemmas on the association-list operations.
-/

theorem alookup_aset_self {β : Type} (l : List (String × β)) (k : String) (v : β) :
    alookup k (aset l k v) = some v := by
  induction l with
  | nil => simp [aset, alookup]
  | cons p rest ih =>
    by_cases h : p.1 = k
    · simp [aset, h, alookup]
    · simp [aset, h, alookup, ih]

theorem alookup_aset_ne {β : Type} (l : List (String × β)) (k k' : String) (v : β)
    (h : k' ≠ k) :
    alookup k' (aset l k v) = alookup k' l := by
  induction l with
  | nil => simp [aset, alookup, Ne.symm h]
  | cons p rest ih =>
    by_cases hp : p.1 = k
    · subst hp
      simp [aset, alookup, Ne.symm h]
    · simp only [aset, if_neg hp]
      by_cases hp' : p.1 = k'
      · simp [alookup, hp']
      · simp [alookup, hp', ih]

theorem alookup_append_of_none {β : Type} (l l' : List (String × β)) (k : String)
    (h : alookup k l = none) :
    alookup k (l ++ l') = alookup k l' := by
  induction l with
  | nil => rfl
  | cons p rest ih =>
    by_cases hp : p.1 = k
    · simp [alookup, hp] at h
    · simp only [alookup, if_neg hp] at h
      show alookup k (p :: (rest ++ l')) = alookup k l'
      simp only [alookup, if_neg hp]
      exact ih h

theorem alookup_mem {β : Type} {l : List (String × β)} {k : String} {v : β}
    (h : alookup k l = some v) : (k, v) ∈ l := by
  induction l with
  | nil => simp [alookup] at h
  | cons p rest ih =>
    by_cases hp : p.1 = k
    · simp only [alookup, if_pos hp, Option.some.injEq] at h
      subst h
      rw [← hp]
      exact List.mem_cons_self p rest
    · simp only [alookup, if_neg hp] at h
      exact List.mem_cons_of_mem p (ih h)

theorem getElem?_set_self {α : Type} (l : List α) (i : Nat) (a : α)
    (h : i < l.length) : (l.set i a)[i]? = some a := by
  induction l generalizing i with
  | nil => simp at h
  | cons x xs ih =>
    cases i with
    | zero => simp
    | succ n =>
      show (x :: xs.set n a)[n + 1]? = some a
      rw [List.getElem?_cons_succ]
      exact ih n (Nat.lt_of_succ_lt_succ h)

/-!
Concrete sample objects, mirroring `create_default_language_model` in
`python/ai/language_model.py` and the contexts of the spec's end-to-end
scenarios; shared by the witness theorems below.
-/

/-- Sample input metadata for the scenario contexts. -/
def sampleMetadata : ContextMetadata :=
  { creation_time := 1
    source := "user"
    version := "1.0"
    dimensions := none
    content_type := some "text/plain"
    tags := [] }

/-- A TEXT context with a string payload (scenario A input). -/
def sampleTextContext : ModelContext :=
  { context_id := "ctx1"
    context_type := ContextType.TEXT
    data := PyData.json (JsonValue.str "Hello world")
    metadata := sampleMetadata
    model_type := none }

/-- A second context carrying the same context_id as
`sampleTextContext` but different data (registry overwrite scenario). -/
def sampleTextContextB : ModelContext :=
  { sampleTextContext with data := PyData.json (JsonValue.str "second") }

/-- An IMAGE context (scenario B input). -/
def sampleImageContext : ModelContext :=
  { context_id := "ctx2"
    context_type := ContextType.IMAGE
    data := PyData.json (JsonValue.str "image-bytes")
    metadata := sampleMetadata
    model_type := none }

/-- The ModelInfo of `create_default_language_model`, after a successful
initialization (status READY). -/
def sampleInfo : ModelInfo :=
  { model_id := "default_language_model"
    name := "GPT-2 Language Model"
    version := "1.0"
    model_type := ModelType.LANGUAGE
    description := "A transformer-based language model for text generation"
    supported_context_types := [ContextType.TEXT]
    status := ModelStatus.READY
    metadata := some [("model_architecture", JsonValue.str "transformer"),
                      ("parameters", JsonValue.str "124M"),
                      ("training_data", JsonValue.str "web text")] }

/-- A READY default language model whose `run` is the mock path
observing the instant 5. -/
def sampleModel : AIModel :=
  { model_info := sampleInfo
    last_run_time := 0
    initializeImpl := Except.ok true
    runImpl := LanguageModel.run "gpt2" 5 }

/-- A manager holding only `sampleModel`. -/
def sampleManager : ModelManager :=
  ⟨[("default_language_model", sampleModel)]⟩

/-- A freshly constructed language model: status INITIALIZING, mock
`initialize` returning True. -/
def sampleInitModel : AIModel :=
  { model_info := { sampleInfo with model_id := "init_model",
                                    status := ModelStatus.INITIALIZING }
    last_run_time := 0
    initializeImpl := Except.ok true
    runImpl := LanguageModel.run "gpt2" 5 }

/-- A manager holding only `sampleInitModel`. -/
def sampleManager2 : ModelManager :=
  ⟨[("init_model", sampleInitModel)]⟩

/-- A second model carrying the same model_id as `sampleModel` but
different content (duplicate-registration scenario). -/
def sampleDupModel : AIModel :=
  { model_info := { sampleInfo with name := "duplicate" }
    last_run_time := 0
    initializeImpl := Except.ok true
    runImpl := LanguageModel.run "gpt2" 9 }

/-- A READY model whose `run` raises on every context. -/
def sampleRaisingModel : AIModel :=
  { model_info := { sampleInfo with model_id := "raising_model" }
    last_run_time := 0
    initializeImpl := Except.ok true
    runImpl := fun _ => Except.error (PyError.valueError "backend failure") }

/-- A manager holding only `sampleRaisingModel`. -/
def sampleManager3 : ModelManager :=
  ⟨[("raising_model", sampleRaisingModel)]⟩

/-- The output context `LanguageModel.run "gpt2" 5` produces on
`sampleTextContext` (mock generation). -/
def sampleResponse : ModelContext :=
  { context_id := "ctx1_response"
    context_type := ContextType.TEXT
    data := PyData.json (JsonValue.str "Response to: Hello world... (mock output)")
    metadata :=
      { creation_time := 5
        source := "language_model:gpt2"
        version := "1.0"
        dimensions := none
        content_type := some "text/plain"
        tags := ["generated", "language-model"] }
    model_type := some ModelType.LANGUAGE }

/-- A one-cell heap holding `sampleInfo` at address 0. -/
def sampleHeap : InfoHeap :=
  ⟨[sampleInfo]⟩

/-- The reference-view manager whose single model's ModelInfo lives at
heap address 0. -/
def sampleManagerRef : ModelManagerRef :=
  ⟨[("default_language_model", { model_info := 0, last_run_time := 0 })]⟩

/-!
Enum tag round-trip facts used by the serialization theorem.
-/

theorem contextTypeTag_roundtrip (ct : ContextType) :
    ContextType.ofValue ct.value = some ct := by
  cases ct <;> rfl

theorem modelTypeTag_roundtrip (t : ModelType) :
    ModelType.ofValue t.value = some t := by
  cases t <;> rfl

theorem modelTypeTag_ne_empty (t : ModelType) : t.value ≠ "" := by
  cases t <;> decide

theorem contextMetadata_roundtrip (m : ContextMetadata) :
    ContextMetadata.from_dict m.to_dict = m :=
  rfl

theorem lt_length_of_getElem?_eq_some {α : Type} {l : List α} {i : Nat} {a : α}
    (h : l[i]? = some a) : i < l.length := by
  induction l generalizing i with
  | nil => simp at h
  | cons x xs ih =>
    cases i with
    | zero => simp
    | succ n =>
      rw [List.getElem?_cons_succ] at h
      exact Nat.succ_lt_succ (ih h)

/-- C1: a READY model that supports the context's type is run: the
status is written to RUNNING, `run(context)` is invoked, and on a
normal return the status is written back to READY, the last-run
timestamp is stamped to now and the produced context is returned;
when `run` raises, the status is written to ERROR and None is
returned. -/
theorem run_model_ready_supported (mgr : ModelManager) (mid : String)
    (ctx : ModelContext) (now : Nat) (m : AIModel)
    (hm : mgr.get_model mid = some m)
    (hready : m.status = ModelStatus.READY)
    (hsupp : m.supports_context_type ctx.context_type = true) :
    (∀ result, m.runImpl ctx = Except.ok result →
      (mgr.run_model mid ctx now).result = some result ∧
      (mgr.run_model mid ctx now).status_writes =
        [ModelStatus.RUNNING, ModelStatus.READY] ∧
      ((mgr.run_model mid ctx now).manager.get_model mid).map AIModel.status =
        some ModelStatus.READY ∧
      ((mgr.run_model mid ctx now).manager.get_model mid).map AIModel.last_run_time =
        some now) ∧
    (∀ e, m.runImpl ctx = Except.error e →
      (mgr.run_model mid ctx now).result = none ∧
      (mgr.run_model mid ctx now).status_writes =
        [ModelStatus.RUNNING, ModelStatus.ERROR] ∧
      ((mgr.run_model mid ctx now).manager.get_model mid).map AIModel.status =
        some ModelStatus.ERROR) := by
  have hm' := hm
  rw [ModelManager.get_model] at hm'
  constructor
  · intro result hrun
    have hv : mgr.run_model mid ctx now =
        ⟨some result,
          ⟨aset mgr._models mid ((m.set_status ModelStatus.READY).update_last_run_time now)⟩,
          [ModelStatus.RUNNING, ModelStatus.READY]⟩ := by
      simp [ModelManager.run_model, hm', hready, hsupp, hrun]
    refine ⟨by rw [hv], by rw [hv], ?_, ?_⟩ <;>
      simp [hv, ModelManager.get_model, alookup_aset_self, AIModel.set_status,
            AIModel.status, AIModel.update_last_run_time, AIModel.last_run_time]
  · intro e hrun
    have hv : mgr.run_model mid ctx now =
        ⟨none, ⟨aset mgr._models mid (m.set_status ModelStatus.ERROR)⟩,
          [ModelStatus.RUNNING, ModelStatus.ERROR]⟩ := by
      simp [ModelManager.run_model, hm', hready, hsupp, hrun]
    refine ⟨by rw [hv], by rw [hv], ?_⟩
    simp [hv, ModelManager.get_model, alookup_aset_self, AIModel.set_status,
          AIModel.status]

theorem run_model_ready_supported_witness :
    sampleManager.get_model "default_language_model" = some sampleModel ∧
    sampleModel.status = ModelStatus.READY ∧
    sampleModel.supports_context_type sampleTextContext.context_type = true ∧
    sampleModel.runImpl sampleTextContext = Except.ok sampleResponse ∧
    (sampleManager.run_model "default_language_model" sampleTextContext 7).result =
      some sampleResponse ∧
    (sampleManager.run_model "default_language_model" sampleTextContext 7).status_writes =
      [ModelStatus.RUNNING, ModelStatus.READY] ∧
    ((sampleManager.run_model "default_language_model" sampleTextContext 7).manager.get_model
        "default_language_model").map AIModel.status = some ModelStatus.READY ∧
    ((sampleManager.run_model "default_language_model" sampleTextContext 7).manager.get_model
        "default_language_model").map AIModel.last_run_time = some 7 :=
  have h := (run_model_ready_supported sampleManager "default_language_model"
    sampleTextContext 7 sampleModel rfl rfl rfl).1 sampleResponse rfl
  ⟨rfl, rfl, rfl, rfl, h.1, h.2.1, h.2.2.1, h.2.2.2⟩

/-- C2: a READY model rejects a context whose type it does not support
before invoking `run`: the call returns None, the manager state is
untouched, no status is written, and the model's status is still READY
afterwards (in particular it never becomes ERROR on this path). -/
theorem run_model_unsupported_context (mgr : ModelManager) (mid : String)
    (ctx : ModelContext) (now : Nat) (m : AIModel)
    (hm : mgr.get_model mid = some m)
    (hready : m.status = ModelStatus.READY)
    (hsupp : m.supports_context_type ctx.context_type = false) :
    mgr.run_model mid ctx now = ⟨none, mgr, []⟩ ∧
    ((mgr.run_model mid ctx now).manager.get_model mid).map AIModel.status =
      some ModelStatus.READY := by
  have hm' := hm
  rw [ModelManager.get_model] at hm'
  have hv : mgr.run_model mid ctx now = ⟨none, mgr, []⟩ := by
    simp [ModelManager.run_model, hm', hready, hsupp]
  refine ⟨hv, ?_⟩
  rw [hv]
  show (mgr.get_model mid).map AIModel.status = some ModelStatus.READY
  rw [hm]
  simp [hready]

theorem run_model_unsupported_context_witness :
    sampleManager.get_model "default_language_model" = some sampleModel ∧
    sampleModel.status = ModelStatus.READY ∧
    sampleModel.supports_context_type sampleImageContext.context_type = false ∧
    sampleManager.run_model "default_language_model" sampleImageContext 7 =
      ⟨none, sampleManager, []⟩ ∧
    ((sampleManager.run_model "default_language_model" sampleImageContext 7).manager.get_model
        "default_language_model").map AIModel.status = some ModelStatus.READY :=
  have h := run_model_unsupported_context sampleManager "default_language_model"
    sampleImageContext 7 sampleModel rfl rfl rfl
  ⟨rfl, rfl, rfl, h.1, h.2⟩

/-- C3: a registered model whose status is not READY is never run:
`run_model` returns None for every context, the manager state is
untouched, no status is written, and the model's status after the call
is exactly what it was before. -/
theorem run_model_not_ready (mgr : ModelManager) (mid : String)
    (ctx : ModelContext) (now : Nat) (m : AIModel)
    (hm : mgr.get_model mid = some m)
    (hnr : m.status ≠ ModelStatus.READY) :
    mgr.run_model mid ctx now = ⟨none, mgr, []⟩ ∧
    ((mgr.run_model mid ctx now).manager.get_model mid).map AIModel.status =
      some m.status := by
  have hm' := hm
  rw [ModelManager.get_model] at hm'
  have hv : mgr.run_model mid ctx now = ⟨none, mgr, []⟩ := by
    simp [ModelManager.run_model, hm', hnr]
  refine ⟨hv, ?_⟩
  rw [hv]
  show (mgr.get_model mid).map AIModel.status = some m.status
  rw [hm]
  rfl

theorem run_model_not_ready_witness :
    sampleManager2.get_model "init_model" = some sampleInitModel ∧
    sampleInitModel.status ≠ ModelStatus.READY ∧
    sampleManager2.run_model "init_model" sampleTextContext 7 =
      ⟨none, sampleManager2, []⟩ ∧
    ((sampleManager2.run_model "init_model" sampleTextContext 7).manager.get_model
        "init_model").map AIModel.status = some sampleInitModel.status :=
  have h := run_model_not_ready sampleManager2 "init_model" sampleTextContext 7
    sampleInitModel rfl (by decide)
  ⟨rfl, by decide, h.1, h.2⟩

/-- C4: `initialize_model` returns False on an unknown id with no state
change; for a registered model, a True result of `initialize()` sets
status READY and returns True, a False result sets status ERROR and
returns False, and a raised exception is caught, sets status ERROR and
returns False. -/
theorem initialize_model_spec (mgr : ModelManager) (mid : String) :
    (mgr.get_model mid = none → mgr.initialize_model mid = (false, mgr)) ∧
    (∀ m, mgr.get_model mid = some m →
      (m.initializeImpl = Except.ok true →
        (mgr.initialize_model mid).1 = true ∧
        ((mgr.initialize_model mid).2.get_model mid).map AIModel.status =
          some ModelStatus.READY) ∧
      (m.initializeImpl = Except.ok false →
        (mgr.initialize_model mid).1 = false ∧
        ((mgr.initialize_model mid).2.get_model mid).map AIModel.status =
          some ModelStatus.ERROR) ∧
      (∀ e, m.initializeImpl = Except.error e →
        (mgr.initialize_model mid).1 = false ∧
        ((mgr.initialize_model mid).2.get_model mid).map AIModel.status =
          some ModelStatus.ERROR)) := by
  constructor
  · intro hnone
    rw [ModelManager.get_model] at hnone
    simp [ModelManager.initialize_model, hnone]
  · intro m hm
    rw [ModelManager.get_model] at hm
    refine ⟨fun hi => ?_, fun hi => ?_, fun e hi => ?_⟩
    · have hv : mgr.initialize_model mid =
          (true, ⟨aset mgr._models mid (m.set_status ModelStatus.READY)⟩) := by
        simp [ModelManager.initialize_model, hm, hi]
      rw [hv]
      exact ⟨rfl, by simp [ModelManager.get_model, alookup_aset_self,
        AIModel.set_status, AIModel.status]⟩
    · have hv : mgr.initialize_model mid =
          (false, ⟨aset mgr._models mid (m.set_status ModelStatus.ERROR)⟩) := by
        simp [ModelManager.initialize_model, hm, hi]
      rw [hv]
      exact ⟨rfl, by simp [ModelManager.get_model, alookup_aset_self,
        AIModel.set_status, AIModel.status]⟩
    · have hv : mgr.initialize_model mid =
          (false, ⟨aset mgr._models mid (m.set_status ModelStatus.ERROR)⟩) := by
        simp [ModelManager.initialize_model, hm, hi]
      rw [hv]
      exact ⟨rfl, by simp [ModelManager.get_model, alookup_aset_self,
        AIModel.set_status, AIModel.status]⟩

theorem initialize_model_spec_witness :
    sampleManager2.get_model "init_model" = some sampleInitModel ∧
    sampleInitModel.initializeImpl = Except.ok true ∧
    (sampleManager2.initialize_model "init_model").1 = true ∧
    ((sampleManager2.initialize_model "init_model").2.get_model "init_model").map
      AIModel.status = some ModelStatus.READY :=
  have h := ((initialize_model_spec sampleManager2 "init_model").2
    sampleInitModel rfl).1 rfl
  ⟨rfl, rfl, h.1, h.2⟩

/-- C5: deserializing the dict form of any ModelContext succeeds and
reproduces context_id, context_type, model_type and every metadata field
(creation_time, source, version, dimensions, content_type, tags)
exactly; the data payload is unchanged when it is a JSON-compatible
value, and a numpy-array payload comes back as its `.tolist()`
equivalent nested sequence of numbers. -/
theorem modelContext_from_dict_to_dict (c : ModelContext) :
    ModelContext.from_dict c.to_dict =
      some { c with data := PyData.json c.data.serialize } := by
  cases c with
  | mk cid ct dat md mt =>
    cases mt with
    | none =>
      simp [ModelContext.to_dict, ModelContext.from_dict, contextTypeTag_roundtrip,
            resolveModelType, contextMetadata_roundtrip]
    | some t =>
      simp [ModelContext.to_dict, ModelContext.from_dict, contextTypeTag_roundtrip,
            resolveModelType, modelTypeTag_ne_empty t, modelTypeTag_roundtrip,
            contextMetadata_roundtrip]


/-- C6: registering a second model under an already-registered model_id
returns False and changes nothing: `get_model` still returns the
originally registered model. -/
theorem register_model_duplicate (mgr : ModelManager) (m0 m : AIModel)
    (hm : mgr.get_model m.model_id = some m0) :
    mgr.register_model m = (false, mgr) ∧
    (mgr.register_model m).2.get_model m.model_id = some m0 := by
  have hm' := hm
  rw [ModelManager.get_model] at hm'
  have h1 : mgr.register_model m = (false, mgr) := by
    simp [ModelManager.register_model, hm']
  exact ⟨h1, by rw [h1]; exact hm⟩

theorem register_model_duplicate_witness :
    sampleManager.get_model sampleDupModel.model_id = some sampleModel ∧
    sampleManager.register_model sampleDupModel = (false, sampleManager) ∧
    (sampleManager.register_model sampleDupModel).2.get_model
      sampleDupModel.model_id = some sampleModel :=
  have h := register_model_duplicate sampleManager sampleModel sampleDupModel rfl
  ⟨rfl, h.1, h.2⟩

/-- C7: registering a model under a fresh model_id returns True, a
subsequent `get_model` returns exactly that model, and the model's
status is unchanged by registration. -/
theorem register_model_fresh (mgr : ModelManager) (m : AIModel)
    (hnew : mgr.get_model m.model_id = none) :
    (mgr.register_model m).1 = true ∧
    (mgr.register_model m).2.get_model m.model_id = some m ∧
    ((mgr.register_model m).2.get_model m.model_id).map AIModel.status =
      some m.status := by
  have hm' := hnew
  rw [ModelManager.get_model] at hm'
  have h1 : mgr.register_model m = (true, ⟨mgr._models ++ [(m.model_id, m)]⟩) := by
    simp [ModelManager.register_model, hm']
  have h2 : (mgr.register_model m).2.get_model m.model_id = some m := by
    rw [h1]
    show alookup m.model_id (mgr._models ++ [(m.model_id, m)]) = some m
    rw [alookup_append_of_none _ _ _ hm']
    simp [alookup]
  exact ⟨by rw [h1], h2, by rw [h2]; rfl⟩

theorem register_model_fresh_witness :
    sampleManager.get_model sampleInitModel.model_id = none ∧
    (sampleManager.register_model sampleInitModel).1 = true ∧
    (sampleManager.register_model sampleInitModel).2.get_model
      sampleInitModel.model_id = some sampleInitModel ∧
    ((sampleManager.register_model sampleInitModel).2.get_model
      sampleInitModel.model_id).map AIModel.status = some sampleInitModel.status :=
  have h := register_model_fresh sampleManager sampleInitModel rfl
  ⟨rfl, h.1, h.2.1, h.2.2⟩

/-- C8: registering two contexts that share a context_id leaves only
the second retrievable via `get` (last-write-wins), and the second
registration surfaces the id-collision warning through the logging
collaborator rather than an error. -/
theorem registry_overwrite (r : ContextRegistry) (c1 c2 : ModelContext)
    (hid : c1.context_id = c2.context_id) :
    ((r.register c1).1.register c2).2 = true ∧
    ((r.register c1).1.register c2).1.get c1.context_id = some c2 := by
  constructor
  · show (alookup c2.context_id (aset r._contexts c1.context_id c1)).isSome = true
    rw [hid, alookup_aset_self]
    rfl
  · show alookup c1.context_id
      (aset (aset r._contexts c1.context_id c1) c2.context_id c2) = some c2
    rw [hid, alookup_aset_self]

theorem registry_overwrite_witness :
    sampleTextContext.context_id = sampleTextContextB.context_id ∧
    (((⟨[]⟩ : ContextRegistry).register sampleTextContext).1.register
      sampleTextContextB).2 = true ∧
    (((⟨[]⟩ : ContextRegistry).register sampleTextContext).1.register
      sampleTextContextB).1.get sampleTextContext.context_id =
      some sampleTextContextB :=
  have h := registry_overwrite ⟨[]⟩ sampleTextContext sampleTextContextB rfl
  ⟨rfl, h.1, h.2⟩

/-- C10: a model's last_run_time changes only on a successful run: when
`run_model` returns None (unknown id, status not READY, unsupported
context type, or a raised exception from `run`), every registered
model's last_run_time is the same after the call as before it. -/
theorem run_model_failure_preserves_last_run_time (mgr : ModelManager)
    (mid : String) (ctx : ModelContext) (now : Nat)
    (hfail : (mgr.run_model mid ctx now).result = none) (mid' : String) :
    ((mgr.run_model mid ctx now).manager.get_model mid').map AIModel.last_run_time =
      (mgr.get_model mid').map AIModel.last_run_time := by
  rcases hl : alookup mid mgr._models with _ | m
  · simp [ModelManager.run_model, hl]
  · by_cases hr : m.status = ModelStatus.READY
    · by_cases hs : m.supports_context_type ctx.context_type = true
      · rcases hrun : m.runImpl ctx with e | result
        · have hv : mgr.run_model mid ctx now =
              ⟨none, ⟨aset mgr._models mid (m.set_status ModelStatus.ERROR)⟩,
                [ModelStatus.RUNNING, ModelStatus.ERROR]⟩ := by
            simp [ModelManager.run_model, hl, hr, hs, hrun]
          rw [hv]
          by_cases hmid : mid' = mid
          · subst hmid
            simp [ModelManager.get_model, alookup_aset_self, hl,
                  AIModel.set_status, AIModel.last_run_time]
          · simp [ModelManager.get_model, alookup_aset_ne _ _ _ _ hmid]
        · exfalso
          have : (mgr.run_model mid ctx now).result = some result := by
            simp [ModelManager.run_model, hl, hr, hs, hrun]
          rw [this] at hfail
          exact Option.noConfusion hfail
      · simp [ModelManager.run_model, hl, hr, hs]
    · simp [ModelManager.run_model, hl, hr]

theorem run_model_failure_preserves_last_run_time_witness :
    (sampleManager3.run_model "raising_model" sampleTextContext 7).result = none ∧
    ((sampleManager3.run_model "raising_model" sampleTextContext 7).manager.get_model
        "raising_model").map AIModel.last_run_time =
      (sampleManager3.get_model "raising_model").map AIModel.last_run_time :=
  ⟨rfl, run_model_failure_preserves_last_run_time sampleManager3 "raising_model"
    sampleTextContext 7 rfl "raising_model"⟩

/-- C9 counterexample: `list_models` does NOT return snapshots. The one
registered model's ModelInfo lives at heap address 0, `list_models`
returns exactly that address, and mutating the returned object (setting
its status to ERROR) changes the status the manager observes for the
model from READY to ERROR. -/
theorem list_models_not_snapshots :
    sampleManagerRef.list_models sampleHeap none = [0] ∧
    sampleManagerRef.model_status sampleHeap "default_language_model" =
      some ModelStatus.READY ∧
    sampleManagerRef.model_status
      (sampleHeap.write 0 { sampleInfo with status := ModelStatus.ERROR })
      "default_language_model" = some ModelStatus.ERROR ∧
    ModelStatus.ERROR ≠ ModelStatus.READY :=
  ⟨rfl, rfl, rfl, by decide⟩

/-- C9 (amended): `list_models` returns the registered models' live
ModelInfo objects, not snapshots — every registered model's own
ModelInfo reference appears in the unfiltered result, and writing a new
status through that reference changes the status the manager observes
for the model; with a model_type filter supplied, the result consists
exactly of the ModelInfo references of models whose model_type matches
the filter. -/
theorem list_models_live_refs (h : InfoHeap) (mgr : ModelManagerRef)
    (mid : String) (m : AIModelRef) (info : ModelInfo)
    (hm : mgr.get_model mid = some m)
    (hi : h.read m.model_info = some info) :
    m.model_info ∈ mgr.list_models h none ∧
    (∀ s, mgr.model_status (h.write m.model_info { info with status := s }) mid =
      some s) ∧
    (∀ t, info.model_type = t → m.model_info ∈ mgr.list_models h (some t)) ∧
    (∀ t r, r ∈ mgr.list_models h (some t) →
      ∃ mid' m', (mid', m') ∈ mgr._models ∧ m'.model_info = r ∧
        (h.read r).map ModelInfo.model_type = some t) := by
  rw [ModelManagerRef.get_model] at hm
  have hmem : (mid, m) ∈ mgr._models := alookup_mem hm
  have hlt : m.model_info < h.cells.length := by
    rw [InfoHeap.read] at hi
    exact lt_length_of_getElem?_eq_some hi
  refine ⟨?_, ?_, ?_, ?_⟩
  · exact List.mem_map.mpr ⟨m, List.mem_map.mpr ⟨(mid, m), hmem, rfl⟩, rfl⟩
  · intro s
    rw [ModelManagerRef.model_status, hm]
    show ((h.cells.set m.model_info _)[m.model_info]?).map ModelInfo.status = some s
    rw [getElem?_set_self _ _ _ hlt]
    rfl
  · intro t ht
    apply List.mem_map.mpr
    refine ⟨m, List.mem_filter.mpr ⟨List.mem_map.mpr ⟨(mid, m), hmem, rfl⟩, ?_⟩, rfl⟩
    simp [hi, ht]
  · intro t r hr
    rcases List.mem_map.mp hr with ⟨m', hm', hmr⟩
    rcases List.mem_filter.mp hm' with ⟨hmm, hpred⟩
    rcases List.mem_map.mp hmm with ⟨p, hpm, hpe⟩
    refine ⟨p.1, m', ?_, hmr, ?_⟩
    · have hpp : (p.1, p.2) ∈ mgr._models := hpm
      rw [hpe] at hpp
      exact hpp
    · have hp := of_decide_eq_true hpred
      rw [← hmr]
      exact hp

theorem list_models_live_refs_witness :
    sampleManagerRef.get_model "default_language_model" =
      some { model_info := 0, last_run_time := 0 } ∧
    sampleHeap.read 0 = some sampleInfo ∧
    (0 : Nat) ∈ sampleManagerRef.list_models sampleHeap none ∧
    sampleManagerRef.model_status
      (sampleHeap.write 0 { sampleInfo with status := ModelStatus.STOPPED })
      "default_language_model" = some ModelStatus.STOPPED :=
  have h := list_models_live_refs sampleHeap sampleManagerRef
    "default_language_model" { model_info := 0, last_run_time := 0 } sampleInfo rfl rfl
  ⟨rfl, rfl, h.1, h.2.1 ModelStatus.STOPPED⟩
